import Mathlib

/-!
Shallow embedding of the permit-backend order/payment state machine, the
task-processing pipeline operations, the download-token lifecycle, and the
6-inch layout grid computation, together with proofs of the behavioural
properties claimed for them.

Sources embedded (Go):
* internal/infrastructure/repo/postgres.go lines 171-273 - the `usecase`
  OrderService (Create / Pay / Callback) with the payment idempotency key.
* the `server` handleOrders POST handler - request validation in front of
  OrderService.Create.
* internal/usecase/task_service.go - TaskService.CreateTask,
  TaskService.GenerateBackground, DownloadService.CreateToken / UseToken.
* internal/usecase/task_service_test.go lines 454-496 -
  TaskService.generateLayout6Inch (grid geometry).

Modelling conventions:
* Repositories (Go map / SQL table keyed by id) are association lists
  `List (String x record)`; `Get` walks the list, `Put` replaces the first
  entry with the record's own key or appends.
* Timestamps are `Int` (one clock value is passed per operation; the Go
  code calls time.Now several times inside one operation, which only
  affects which instant is stored, not control flow).
* Byte blobs are opaque: `Bytes := String`.
* External collaborators (algo HTTP client, file system, asset writer) are
  function parameters returning `Except String _`, mirroring Go's
  `(value, error)` returns.
* `o.PayParams` (a JSON string, "" when unset) is `Option PayParams`:
  `none` is the empty string and `some p` a marshalled payload; Go's
  json.Marshal of the payload map is deterministic (keys sorted) and
  json.Unmarshal of a marshalled payload always succeeds, so on every
  state the service itself can produce this is a faithful rendering, and
  byte-identical payloads correspond to equal `PayParams` values.
-/

namespace PermitBackend

/-- Error taxonomy of the usecase layer: ErrNotFound / ErrConflict /
ErrBadRequest, error values returned (not thrown) by the services. -/
inductive SvcErr
  | notFound (what : String)
  | conflict (msg : String)
  | badRequest (msg : String)
deriving DecidableEq, Repr

/-- An operation error: either a typed usecase error or an error value
propagated verbatim from a collaborator (transport / IO failure). -/
inductive OpErr
  | svc (e : SvcErr)
  | ext (msg : String)
deriving DecidableEq, Repr

/-- Go strings.TrimSpace: drop leading and trailing whitespace. -/
def trimSpace (s : String) : String :=
  ⟨((s.data.dropWhile Char.isWhitespace).reverse.dropWhile Char.isWhitespace).reverse⟩

/-- Go helper orDefault: a default for blank strings. -/
def orDefault (s d : String) : String :=
  if trimSpace s = "" then d else s

/-- Opaque stand-in for byte slices ([]byte); their content is never
inspected by the embedded control flow. -/
abbrev Bytes := String

/-! ### Association-list repositories (Go maps keyed by record id) -/

/-- Repository Get: first entry with the given key. -/
def alistGet {α : Type} : List (String × α) → String → Option α
  | [], _ => none
  | (k, v) :: rest, id => if k = id then some v else alistGet rest id

/-- Repository Put: replace the first entry with this key, else append. -/
def alistPut {α : Type} : List (String × α) → String → α → List (String × α)
  | [], k, v => [(k, v)]
  | (k0, v0) :: rest, k, v =>
      if k0 = k then (k0, v) :: rest else (k0, v0) :: alistPut rest k v

/-- A store is well formed when every entry is filed under its record's
own id - true of both the memory map and the SQL repositories. -/
abbrev alistWF {α : Type} (key : α → String) (st : List (String × α)) : Prop :=
  ∀ pr ∈ st, key pr.2 = pr.1

theorem alistGet_put_self {α : Type} (st : List (String × α)) (k : String) (v : α) :
    alistGet (alistPut st k v) k = some v := by
  induction st with
  | nil => simp [alistPut, alistGet]
  | cons hd rest ih =>
    by_cases h : hd.1 = k
    · simp [alistPut, alistGet, h]
    · simp [alistPut, alistGet, h, ih]

theorem alistGet_put_ne {α : Type} (st : List (String × α)) (k k' : String) (v : α)
    (h : k' ≠ k) : alistGet (alistPut st k v) k' = alistGet st k' := by
  have hkk : ¬(k = k') := fun hh => h hh.symm
  induction st with
  | nil => simp [alistPut, alistGet, hkk]
  | cons hd rest ih =>
    by_cases h0 : hd.1 = k
    · have h1 : ¬(hd.1 = k') := by rw [h0]; exact hkk
      simp [alistPut, alistGet, h0, h1, hkk]
    · by_cases h1 : hd.1 = k'
      · simp [alistPut, alistGet, h0, h1, h]
      · simp [alistPut, alistGet, h0, h1, ih]

theorem alistGet_wf {α : Type} (key : α → String) (st : List (String × α))
    (hwf : alistWF key st) (id : String) (v : α) (h : alistGet st id = some v) :
    key v = id := by
  induction st with
  | nil => simp [alistGet] at h
  | cons hd rest ih =>
    by_cases h0 : hd.1 = id
    · simp [alistGet, h0] at h
      have hk := hwf hd (List.mem_cons_self _ _)
      rw [← h, hk]
      exact h0
    · simp [alistGet, h0] at h
      exact ih (fun pr hpr => hwf pr (List.mem_cons_of_mem _ hpr)) h

theorem alistWF_put {α : Type} (key : α → String) (st : List (String × α))
    (hwf : alistWF key st) (v : α) :
    alistWF key (alistPut st (key v) v) := by
  induction st with
  | nil =>
    intro pr hpr
    simp [alistPut] at hpr
    simp [hpr]
  | cons hd rest ih =>
    by_cases h0 : hd.1 = key v
    · intro pr hpr
      simp [alistPut, h0] at hpr
      rcases hpr with h | h
      · simp [h, h0]
      · exact hwf pr (List.mem_cons_of_mem _ h)
    · intro pr hpr
      simp [alistPut, h0] at hpr
      rcases hpr with h | h
      · exact hwf pr (by simp [h])
      · exact ih (fun q hq => hwf q (List.mem_cons_of_mem _ hq)) pr h

/-! ### Order data model (internal/domain, order side) -/

inductive OrderStatus
  | created
  | pending
  | paid
  | canceled
  | refunded
deriving DecidableEq, Repr

/-- domain.OrderItem: Type + Qty (field Type renamed itemType). -/
structure OrderItem where
  itemType : String
  qty : Int
deriving DecidableEq, Repr

/-- The mock payment-intent payload built by OrderService.Pay (the Go
map[string]any with keys appId / timeStamp / nonceStr / package /
signType / paySign; field package renamed packageStr). -/
structure PayParams where
  appId : String
  timeStamp : String
  nonceStr : String
  packageStr : String
  signType : String
  paySign : String
deriving DecidableEq, Repr

/-- domain.Order. PayParams (a JSON string, "" when empty) is modelled as
an `Option PayParams` (see the file comment). -/
structure Order where
  orderID : String
  taskID : String
  items : List OrderItem
  city : String
  remark : String
  amountCents : Int
  channel : String
  status : OrderStatus
  payIdempotencyKey : String
  payParams : Option PayParams
  createdAt : Int
  updatedAt : Int
deriving DecidableEq, Repr

abbrev OrderStore := List (String × Order)

def getOrder (st : OrderStore) (id : String) : Option Order := alistGet st id

def putOrder (st : OrderStore) (o : Order) : OrderStore := alistPut st o.orderID o

abbrev OrderStoreWF (st : OrderStore) : Prop := alistWF Order.orderID st

/-! ### Task data model (internal/domain/task.go) -/

inductive TaskStatus
  | queued
  | processing
  | done
  | failed
deriving DecidableEq, Repr

structure TaskSpec where
  code : String
  widthPx : Int
  heightPx : Int
  dpi : Int
deriving DecidableEq, Repr

/-- domain.Task. The ProcessedUrls / LayoutUrls Go maps are association
lists. -/
structure Task where
  id : String
  userID : String
  specCode : String
  spec : TaskSpec
  itemID : Int
  watermark : Bool
  beauty : Int
  enhance : Int
  sourceObjectKey : String
  status : TaskStatus
  baselineUrl : String
  availableColors : List String
  processedUrls : List (String × String)
  layoutUrls : List (String × String)
  errorMsg : String
  createdAt : Int
  updatedAt : Int
deriving DecidableEq, Repr

abbrev TaskStore := List (String × Task)

def getTask (st : TaskStore) (id : String) : Option Task := alistGet st id

def putTask (st : TaskStore) (t : Task) : TaskStore := alistPut st t.id t

abbrev TaskStoreWF (st : TaskStore) : Prop := alistWF Task.id st

/-! ### OrderService (repo/postgres.go lines 171-273, package usecase) -/

namespace OrderService

/-- OrderService.Create: overwrite id, status, idempotency fields and the
timestamps on the request order, persist it, return the new id.
`newID` stands for the randomID() draw and `now` for time.Now(). -/
def Create (st : OrderStore) (req : Order) (newID : String) (now : Int) :
    String × OrderStore :=
  let o : Order :=
    { req with
      orderID := newID
      status := .created
      payIdempotencyKey := ""
      payParams := none
      createdAt := now
      updatedAt := now }
  (newID, putOrder st o)

/-- The mock payment intent built inside OrderService.Pay; `ts` is the
Unix timestamp, `nonce` and `rid` the two randomID() draws
(prepayID := "mock-" ++ rid). -/
def mkPayParams (appID : String) (ts : Int) (nonce rid : String) : PayParams :=
  { appId := appID
    timeStamp := toString ts
    nonceStr := nonce
    packageStr := "prepay_id=" ++ ("mock-" ++ rid)
    signType := "RSA"
    paySign := "MOCK_SIGN" }

/-- The field updates Pay performs on the order before persisting it on
the fresh-issuance path. -/
def payFreshOrder (o : Order) (channel idempotencyKey : String) (now : Int)
    (p : PayParams) : Order :=
  { o with
    channel := channel
    status := .pending
    payIdempotencyKey := idempotencyKey
    updatedAt := now
    payParams := some p }

/-- OrderService.Pay(orderID, channel, idempotencyKey). The pair's second
component is the repository after the call (unchanged on error). -/
def Pay (appID : String) (st : OrderStore) (orderID channel idempotencyKey : String)
    (now ts : Int) (nonce rid : String) : Except SvcErr PayParams × OrderStore :=
  match getOrder st orderID with
  | none => (.error (.notFound "order"), st)
  | some o =>
    if o.status = .paid then
      (.error (.conflict "order already paid"), st)
    else if o.payIdempotencyKey ≠ "" ∧ o.payIdempotencyKey ≠ idempotencyKey then
      (.error (.conflict "idempotency key mismatch"), st)
    else
      match (if o.payIdempotencyKey = idempotencyKey then o.payParams else none) with
      | some cached => (.ok cached, st)
      | none =>
        let p := mkPayParams appID ts nonce rid
        (.ok p, putOrder st (payFreshOrder o channel idempotencyKey now p))

/-- OrderService.Callback(orderID, status): map the external token to an
order status; unrecognized tokens are rejected before any field of the
order is assigned. -/
def Callback (st : OrderStore) (orderID status : String) (now : Int) :
    Except SvcErr Unit × OrderStore :=
  match getOrder st orderID with
  | none => (.error (.notFound "order"), st)
  | some o =>
    let target : Option OrderStatus :=
      if status = "paid" then some .paid
      else if status = "pending" then some .pending
      else if status = "canceled" then some .canceled
      else if status = "refunded" then some .refunded
      else none
    match target with
    | none => (.error (.badRequest "invalid status"), st)
    | some ns => (.ok (), putOrder st { o with status := ns, updatedAt := now })

end OrderService

/-- The POST /api/orders request body (server createOrderReq). -/
structure CreateOrderReq where
  taskID : String
  items : List OrderItem
  city : String
  remark : String
  amountCents : Int
  channel : String
deriving DecidableEq, Repr

/-- The create-order operation: the server handleOrders POST validation
(task exists, amount > 0, items non-empty and each with a non-blank type
and positive quantity) followed by OrderService.Create. -/
def handleCreateOrder (tasks : TaskStore) (st : OrderStore) (req : CreateOrderReq)
    (newID : String) (now : Int) : Except SvcErr (String × OrderStore) :=
  if req.taskID = "" then .error (.badRequest "taskId required")
  else if (getTask tasks req.taskID).isNone then .error (.badRequest "task not found")
  else if req.amountCents ≤ 0 then .error (.badRequest "amountCents required")
  else if req.items.isEmpty then .error (.badRequest "items required")
  else if req.items.any (fun it => trimSpace it.itemType = "" || it.qty ≤ 0) then
    .error (.badRequest "invalid items")
  else
    let o : Order :=
      { orderID := ""
        taskID := req.taskID
        items := req.items
        city := req.city
        remark := req.remark
        amountCents := req.amountCents
        channel := orDefault req.channel "wechat"
        status := .created
        payIdempotencyKey := ""
        payParams := none
        createdAt := 0
        updatedAt := 0 }
    .ok (OrderService.Create st o newID now)

/-! ### Order state-machine theorems -/

theorem getOrder_wf (st : OrderStore) (hwf : OrderStoreWF st) (id : String) (o : Order)
    (h : getOrder st id = some o) : o.orderID = id :=
  alistGet_wf Order.orderID st hwf id o h

theorem getOrder_put_self (st : OrderStore) (o : Order) :
    getOrder (putOrder st o) o.orderID = some o :=
  alistGet_put_self st o.orderID o

@[simp] theorem payFreshOrder_orderID (o : Order) (c k : String) (n : Int) (p : PayParams) :
    (OrderService.payFreshOrder o c k n p).orderID = o.orderID := rfl

@[simp] theorem payFreshOrder_status (o : Order) (c k : String) (n : Int) (p : PayParams) :
    (OrderService.payFreshOrder o c k n p).status = .pending := rfl

@[simp] theorem payFreshOrder_key (o : Order) (c k : String) (n : Int) (p : PayParams) :
    (OrderService.payFreshOrder o c k n p).payIdempotencyKey = k := rfl

@[simp] theorem payFreshOrder_params (o : Order) (c k : String) (n : Int) (p : PayParams) :
    (OrderService.payFreshOrder o c k n p).payParams = some p := rfl

/-- C1: Pay returns Conflict on an already-paid order for every key (no
payment intent is ever issued once paid), Conflict whenever the order
already carries a different idempotency key regardless of status,
NotFound when the order id is unknown, and succeeds in every other
case. -/
theorem pay_error_taxonomy (appID : String) (st : OrderStore)
    (orderID channel k : String) (now ts : Int) (nonce rid : String) :
    (getOrder st orderID = none →
      OrderService.Pay appID st orderID channel k now ts nonce rid =
        (.error (.notFound "order"), st))
    ∧ (∀ o, getOrder st orderID = some o → o.status = .paid →
      OrderService.Pay appID st orderID channel k now ts nonce rid =
        (.error (.conflict "order already paid"), st))
    ∧ (∀ o, getOrder st orderID = some o →
        o.payIdempotencyKey ≠ "" → o.payIdempotencyKey ≠ k →
      ∃ m, OrderService.Pay appID st orderID channel k now ts nonce rid =
        (.error (.conflict m), st))
    ∧ (∀ o, getOrder st orderID = some o → o.status ≠ .paid →
        (o.payIdempotencyKey = "" ∨ o.payIdempotencyKey = k) →
      ∃ p st', OrderService.Pay appID st orderID channel k now ts nonce rid =
        (.ok p, st')) := by
  refine ⟨?_, ?_, ?_, ?_⟩
  · intro h
    simp [OrderService.Pay, h]
  · intro o ho hp
    simp [OrderService.Pay, ho, hp]
  · intro o ho hk1 hk2
    by_cases hp : o.status = .paid
    · exact ⟨"order already paid", by simp [OrderService.Pay, ho, hp]⟩
    · exact ⟨"idempotency key mismatch", by simp [OrderService.Pay, ho, hp, hk1, hk2]⟩
  · intro o ho hp hk
    have hguard : ¬(o.payIdempotencyKey ≠ "" ∧ o.payIdempotencyKey ≠ k) := by
      rcases hk with h | h
      · exact fun hc => hc.1 h
      · exact fun hc => hc.2 h
    by_cases hkey : o.payIdempotencyKey = k
    · cases hpp : o.payParams with
      | some cached =>
        exact ⟨cached, st, by simp [OrderService.Pay, ho, hp, hguard, hkey, hpp]⟩
      | none =>
        refine ⟨OrderService.mkPayParams appID ts nonce rid,
          putOrder st (OrderService.payFreshOrder o channel k now
            (OrderService.mkPayParams appID ts nonce rid)), ?_⟩
        simp [OrderService.Pay, ho, hp, hguard, hkey, hpp]
    · have hempty : o.payIdempotencyKey = "" := by
        rcases hk with h | h
        · exact h
        · exact absurd h hkey
      by_cases hke : ("" : String) = k
      · cases hpp : o.payParams with
        | some cached =>
          exact ⟨cached, st, by simp [OrderService.Pay, ho, hp, hguard, hempty, hke, hpp]⟩
        | none =>
          refine ⟨OrderService.mkPayParams appID ts nonce rid,
            putOrder st (OrderService.payFreshOrder o channel k now
              (OrderService.mkPayParams appID ts nonce rid)), ?_⟩
          simp [OrderService.Pay, ho, hp, hguard, hempty, hke, hpp]
      · refine ⟨OrderService.mkPayParams appID ts nonce rid,
          putOrder st (OrderService.payFreshOrder o channel k now
            (OrderService.mkPayParams appID ts nonce rid)), ?_⟩
        simp [OrderService.Pay, ho, hp, hguard, hempty, hke]

/-- C2: once a Pay call has succeeded and the payment intent is cached on
the order under key k, replaying Pay with the same key returns the very
same payload and leaves the repository untouched (so every further
replay returns it as well). -/
theorem pay_same_key_replay_idempotent (appID : String) (st : OrderStore)
    (hwf : OrderStoreWF st) (orderID channel k : String) (now ts : Int) (nonce rid : String)
    (p : PayParams) (st1 : OrderStore)
    (h : OrderService.Pay appID st orderID channel k now ts nonce rid = (.ok p, st1))
    (channel2 : String) (now2 ts2 : Int) (nonce2 rid2 : String) :
    OrderService.Pay appID st1 orderID channel2 k now2 ts2 nonce2 rid2 = (.ok p, st1) := by
  cases hg : getOrder st orderID with
  | none => simp [OrderService.Pay, hg] at h
  | some o =>
    have hid : o.orderID = orderID := getOrder_wf st hwf orderID o hg
    by_cases hp : o.status = .paid
    · simp [OrderService.Pay, hg, hp] at h
    · by_cases hguard : o.payIdempotencyKey ≠ "" ∧ o.payIdempotencyKey ≠ k
      · simp [OrderService.Pay, hg, hp, hguard] at h
      · by_cases hkey : o.payIdempotencyKey = k
        · cases hpp : o.payParams with
          | some cached =>
            simp [OrderService.Pay, hg, hp, hguard, hkey, hpp] at h
            obtain ⟨hpc, hst⟩ := h
            subst hpc
            subst hst
            simp [OrderService.Pay, hg, hp, hguard, hkey, hpp]
          | none =>
            have hstep : OrderService.Pay appID st orderID channel k now ts nonce rid =
                (.ok (OrderService.mkPayParams appID ts nonce rid),
                  putOrder st (OrderService.payFreshOrder o channel k now
                    (OrderService.mkPayParams appID ts nonce rid))) := by
              simp [OrderService.Pay, hg, hp, hkey, hpp]
            rw [hstep] at h
            have hpc' : OrderService.mkPayParams appID ts nonce rid = p :=
              Except.ok.inj (congrArg Prod.fst h)
            have hst : putOrder st (OrderService.payFreshOrder o channel k now
                (OrderService.mkPayParams appID ts nonce rid)) = st1 :=
              congrArg Prod.snd h
            have hrl : getOrder st1 orderID =
                some (OrderService.payFreshOrder o channel k now p) := by
              rw [← hst, ← hpc']
              have hput := getOrder_put_self st (OrderService.payFreshOrder o channel k now
                (OrderService.mkPayParams appID ts nonce rid))
              rw [payFreshOrder_orderID, hid] at hput
              exact hput
            simp [OrderService.Pay, hrl, OrderService.payFreshOrder]
        · have hempty : o.payIdempotencyKey = "" := by
            by_contra hne
            exact hguard ⟨hne, hkey⟩
          have hke : ¬(("" : String) = k) := by
            rw [← hempty]
            exact hkey
          have hstep : OrderService.Pay appID st orderID channel k now ts nonce rid =
              (.ok (OrderService.mkPayParams appID ts nonce rid),
                putOrder st (OrderService.payFreshOrder o channel k now
                  (OrderService.mkPayParams appID ts nonce rid))) := by
            simp [OrderService.Pay, hg, hp, hempty, hke]
          rw [hstep] at h
          have hpc' : OrderService.mkPayParams appID ts nonce rid = p :=
            Except.ok.inj (congrArg Prod.fst h)
          have hst : putOrder st (OrderService.payFreshOrder o channel k now
              (OrderService.mkPayParams appID ts nonce rid)) = st1 :=
            congrArg Prod.snd h
          have hrl : getOrder st1 orderID =
              some (OrderService.payFreshOrder o channel k now p) := by
            rw [← hst, ← hpc']
            have hput := getOrder_put_self st (OrderService.payFreshOrder o channel k now
              (OrderService.mkPayParams appID ts nonce rid))
            rw [payFreshOrder_orderID, hid] at hput
            exact hput
          simp [OrderService.Pay, hrl, OrderService.payFreshOrder]

/-- C3: the create-order operation rejects (with BadRequest and no
persistence) every request whose task does not exist, whose amount is
not positive, or that has a line item with a blank type or non-positive
quantity; and whenever it accepts, the request was valid and the order
is persisted under a fresh id with status created. -/
theorem createOrder_validates_and_persists (tasks : TaskStore) (st : OrderStore)
    (req : CreateOrderReq) (newID : String) (now : Int) :
    ((getTask tasks req.taskID = none ∨ req.amountCents ≤ 0 ∨
        ∃ it ∈ req.items, trimSpace it.itemType = "" ∨ it.qty ≤ 0) →
      ∃ m, handleCreateOrder tasks st req newID now = .error (.badRequest m))
    ∧ (∀ id st', handleCreateOrder tasks st req newID now = .ok (id, st') →
        (getTask tasks req.taskID).isSome ∧ 0 < req.amountCents
        ∧ (∀ it ∈ req.items, trimSpace it.itemType ≠ "" ∧ 0 < it.qty)
        ∧ req.items ≠ [] ∧ id = newID
        ∧ ∃ o, getOrder st' newID = some o ∧ o.orderID = newID ∧ o.status = .created
            ∧ o.taskID = req.taskID ∧ o.items = req.items
            ∧ o.amountCents = req.amountCents ∧ o.payIdempotencyKey = ""
            ∧ o.payParams = none ∧ o.createdAt = now ∧ o.updatedAt = now) := by
  constructor
  · intro hviol
    by_cases h1 : req.taskID = ""
    · exact ⟨"taskId required", by simp [handleCreateOrder, h1]⟩
    · by_cases h2 : (getTask tasks req.taskID).isNone
      · exact ⟨"task not found", by simp [handleCreateOrder, h1, h2]⟩
      · by_cases h3 : req.amountCents ≤ 0
        · exact ⟨"amountCents required", by simp [handleCreateOrder, h1, h2, h3]⟩
        · by_cases h4 : req.items.isEmpty
          · exact ⟨"items required", by simp [handleCreateOrder, h1, h2, h3, h4]⟩
          · have h5 : req.items.any
                (fun it => trimSpace it.itemType = "" || it.qty ≤ 0) = true := by
              rcases hviol with hv | hv | hv
              · rw [hv] at h2
                simp [Option.isNone] at h2
              · exact absurd hv h3
              · obtain ⟨it, hmem, hbad⟩ := hv
                rw [List.any_eq_true]
                refine ⟨it, hmem, ?_⟩
                rcases hbad with hb | hb <;> simp [hb]
            exact ⟨"invalid items", by simp [handleCreateOrder, h1, h2, h3, h4, h5]⟩
  · intro id st' h
    by_cases h1 : req.taskID = ""
    · simp [handleCreateOrder, h1] at h
    · by_cases h2 : (getTask tasks req.taskID).isNone
      · simp [handleCreateOrder, h1, h2] at h
      · by_cases h3 : req.amountCents ≤ 0
        · simp [handleCreateOrder, h1, h2, h3] at h
        · by_cases h4 : req.items.isEmpty
          · simp [handleCreateOrder, h1, h2, h3, h4] at h
          · by_cases h5 : req.items.any
                (fun it => trimSpace it.itemType = "" || it.qty ≤ 0) = true
            · simp [handleCreateOrder, h1, h2, h3, h4, h5] at h
            · have hok : handleCreateOrder tasks st req newID now =
                  .ok (OrderService.Create st
                    { orderID := "", taskID := req.taskID, items := req.items,
                      city := req.city, remark := req.remark,
                      amountCents := req.amountCents,
                      channel := orDefault req.channel "wechat", status := .created,
                      payIdempotencyKey := "", payParams := none,
                      createdAt := 0, updatedAt := 0 } newID now) := by
                simp [handleCreateOrder, h1, h2, h3, h4, h5]
              rw [hok] at h
              have hpair := Except.ok.inj h
              have hidr : id = newID := (congrArg Prod.fst hpair).symm
              have hstr : st' = (OrderService.Create st
                  { orderID := "", taskID := req.taskID, items := req.items,
                    city := req.city, remark := req.remark,
                    amountCents := req.amountCents,
                    channel := orDefault req.channel "wechat", status := .created,
                    payIdempotencyKey := "", payParams := none,
                    createdAt := 0, updatedAt := 0 } newID now).2 :=
                (congrArg Prod.snd hpair).symm
              refine ⟨?_, ?_, ?_, ?_, hidr, ?_⟩
              · cases hg : getTask tasks req.taskID with
                | none => rw [hg] at h2; simp [Option.isNone] at h2
                | some t => simp [hg]
              · omega
              · intro it hmem
                constructor
                · intro hblank
                  apply h5
                  rw [List.any_eq_true]
                  exact ⟨it, hmem, by simp [hblank]⟩
                · by_contra hq
                  apply h5
                  rw [List.any_eq_true]
                  refine ⟨it, hmem, ?_⟩
                  have : it.qty ≤ 0 := by omega
                  simp [this]
              · intro hnil
                rw [hnil] at h4
                simp at h4
              · have hgot : getOrder st' newID = some
                    { orderID := newID, taskID := req.taskID, items := req.items,
                      city := req.city, remark := req.remark,
                      amountCents := req.amountCents,
                      channel := orDefault req.channel "wechat",
                      status := OrderStatus.created,
                      payIdempotencyKey := "", payParams := none,
                      createdAt := now, updatedAt := now } := by
                  rw [hstr]
                  exact alistGet_put_self st newID _
                exact ⟨_, hgot, rfl, rfl, rfl, rfl, rfl, rfl, rfl, rfl, rfl⟩

/-- C4: Callback maps each of the four recognized status tokens to the
corresponding order status from any prior status, rejects every other
token with BadRequest while leaving the repository untouched, and
returns NotFound for an unknown order id. -/
theorem callback_status_mapping (st : OrderStore) (orderID tok : String) (now : Int) :
    (getOrder st orderID = none →
      OrderService.Callback st orderID tok now = (.error (.notFound "order"), st))
    ∧ (∀ o, getOrder st orderID = some o →
        (tok = "paid" → OrderService.Callback st orderID tok now =
          (.ok (), putOrder st { o with status := .paid, updatedAt := now }))
        ∧ (tok = "pending" → OrderService.Callback st orderID tok now =
          (.ok (), putOrder st { o with status := .pending, updatedAt := now }))
        ∧ (tok = "canceled" → OrderService.Callback st orderID tok now =
          (.ok (), putOrder st { o with status := .canceled, updatedAt := now }))
        ∧ (tok = "refunded" → OrderService.Callback st orderID tok now =
          (.ok (), putOrder st { o with status := .refunded, updatedAt := now }))
        ∧ (tok ≠ "paid" → tok ≠ "pending" → tok ≠ "canceled" → tok ≠ "refunded" →
          OrderService.Callback st orderID tok now =
            (.error (.badRequest "invalid status"), st))) := by
  constructor
  · intro h
    simp [OrderService.Callback, h]
  · intro o ho
    refine ⟨?_, ?_, ?_, ?_, ?_⟩
    · intro ht
      simp [OrderService.Callback, ho, ht]
    · intro ht
      simp [OrderService.Callback, ho, ht]
    · intro ht
      simp [OrderService.Callback, ho, ht]
    · intro ht
      simp [OrderService.Callback, ho, ht]
    · intro h1 h2 h3 h4
      simp [OrderService.Callback, ho, h1, h2, h3, h4]

/-! ### Concrete fixtures used by the witnesses -/

instance {ε α : Type} [DecidableEq ε] [DecidableEq α] : DecidableEq (Except ε α) :=
  fun x y =>
    match x, y with
    | .ok a, .ok b =>
      if h : a = b then isTrue (by rw [h]) else isFalse (by intro hc; cases hc; exact h rfl)
    | .error a, .error b =>
      if h : a = b then isTrue (by rw [h]) else isFalse (by intro hc; cases hc; exact h rfl)
    | .ok _, .error _ => isFalse (by intro hc; cases hc)
    | .error _, .ok _ => isFalse (by intro hc; cases hc)

def itemPrint : OrderItem := { itemType := "print", qty := 1 }

def taskDone : Task :=
  { id := "t1", userID := "u1", specCode := "cn_1inch",
    spec := { code := "cn_1inch", widthPx := 295, heightPx := 413, dpi := 300 },
    itemID := 0, watermark := false, beauty := 0, enhance := 0,
    sourceObjectKey := "uploads/s.jpg", status := TaskStatus.done,
    baselineUrl := "/assets/t1/baseline.png",
    availableColors := ["white", "blue"],
    processedUrls := [("white", "/assets/t1/white.jpg")],
    layoutUrls := [], errorMsg := "", createdAt := 0, updatedAt := 0 }

def tasksFix : TaskStore := [("t1", taskDone)]

def orderPaid : Order :=
  { orderID := "o1", taskID := "t1", items := [itemPrint], city := "", remark := "",
    amountCents := 100, channel := "wechat", status := OrderStatus.paid,
    payIdempotencyKey := "", payParams := none, createdAt := 0, updatedAt := 0 }

def cachedIntent : PayParams := OrderService.mkPayParams "app" 7 "n" "r"

def orderCached : Order :=
  { orderPaid with
    orderID := "o2", status := OrderStatus.pending,
    payIdempotencyKey := "k1", payParams := some cachedIntent }

def ordersFix : OrderStore := [("o1", orderPaid), ("o2", orderCached)]

def reqBadAmount : CreateOrderReq :=
  { taskID := "t1", items := [itemPrint], city := "", remark := "",
    amountCents := 0, channel := "" }

/-- Witness for C1: a Pay attempt with a brand-new key on the stored
already-paid order is rejected with the paid Conflict. -/
theorem pay_error_taxonomy_witness :
    OrderService.Pay "app" ordersFix "o1" "wechat" "kNew" 1 2 "n2" "r2" =
      (.error (.conflict "order already paid"), ordersFix) :=
  (pay_error_taxonomy "app" ordersFix "o1" "wechat" "kNew" 1 2 "n2" "r2").2.1
    orderPaid (by decide) (by decide)

/-- Witness for C2: replaying Pay with the stored key on the order that
carries a cached intent returns that intent and leaves the store as
is. -/
theorem pay_same_key_replay_idempotent_witness :
    OrderService.Pay "app" ordersFix "o2" "douyin" "k1" 9 8 "n3" "r3" =
      (.ok cachedIntent, ordersFix) :=
  pay_same_key_replay_idempotent "app" ordersFix (by decide) "o2" "wechat" "k1" 1 2 "n" "r"
    cachedIntent ordersFix (by decide) "douyin" 9 8 "n3" "r3"

/-- Witness for C3: an order request with amount 0 is rejected with
BadRequest. -/
theorem createOrder_validates_and_persists_witness :
    ∃ m, handleCreateOrder tasksFix [] reqBadAmount "n1" 5 = .error (.badRequest m) :=
  (createOrder_validates_and_persists tasksFix [] reqBadAmount "n1" 5).1
    (Or.inr (Or.inl (by decide)))

/-- Witness for C4: a refunded callback moves the stored paid order to
refunded. -/
theorem callback_status_mapping_witness :
    OrderService.Callback ordersFix "o1" "refunded" 3 =
      (.ok (), putOrder ordersFix { orderPaid with status := .refunded, updatedAt := 3 }) :=
  ((callback_status_mapping ordersFix "o1" "refunded" 3).2 orderPaid (by decide)).2.2.2.1 rfl

/-! ### generateLayout6Inch (task_service_test.go lines 454-496) -/

/-- The grid geometry generateLayout6Inch computes before drawing. -/
structure LayoutGrid where
  sheetW : Int
  sheetH : Int
  cols : Int
  rows : Int
  totalW : Int
  totalH : Int
  startX : Int
  startY : Int
  quality : Int
deriving DecidableEq, Repr

/-- The per-axis count: truncated division of (sheet+gap) by (tile+gap),
clamped below at 1 - exactly the Go lines `cols := (sheetW+gap)/(width+gap);
if cols < 1 { cols = 1 }` (Go / on int is truncation toward zero,
Int.tdiv). -/
def layoutCols (sheet tile gap : Int) : Int :=
  let cols0 := (sheet + gap).tdiv (tile + gap)
  if cols0 < 1 then 1 else cols0

/-- TaskService.generateLayout6Inch: the sheet is 6x4 inches at `dpi`
(int(float64(dpi)*6.0) is exactly 6*dpi for every attainable dpi), the
gap 20 px; a non-positive sheet is a fatal BadRequest("dpi"); both axis
counts are clamped at 1; the grid is centred by truncated halving of the
leftover; JPEG quality drops to 70 when 0 < kb < 200. The surrounding
image decode/encode are collaborator steps with no effect on the
geometry. -/
def generateLayout6Inch (width height dpi kb : Int) : Except SvcErr LayoutGrid :=
  let sheetW := 6 * dpi
  let sheetH := 4 * dpi
  if sheetW ≤ 0 ∨ sheetH ≤ 0 then .error (.badRequest "dpi")
  else
    let gap : Int := 20
    let cols := layoutCols sheetW width gap
    let rows := layoutCols sheetH height gap
    let totalW := cols * width + (cols - 1) * gap
    let totalH := rows * height + (rows - 1) * gap
    .ok { sheetW := sheetW, sheetH := sheetH, cols := cols, rows := rows,
          totalW := totalW, totalH := totalH,
          startX := (sheetW - totalW).tdiv 2,
          startY := (sheetH - totalH).tdiv 2,
          quality := if 0 < kb ∧ kb < 200 then 70 else 85 }

theorem layoutCols_fit (sheet tile : Int) (hs : 0 < sheet) (ht : 0 < tile)
    (hfit : tile ≤ sheet) :
    layoutCols sheet tile 20 * (tile + 20) - 20 ≤ sheet
    ∧ ∀ n : Int, n * (tile + 20) - 20 ≤ sheet → n ≤ layoutCols sheet tile 20 := by
  have h20 : (0 : Int) < tile + 20 := by omega
  have htd : (sheet + 20).tdiv (tile + 20) = (sheet + 20) / (tile + 20) :=
    Int.tdiv_eq_ediv (by omega) (by omega)
  have hge1 : 1 ≤ (sheet + 20) / (tile + 20) := by
    rw [Int.le_ediv_iff_mul_le h20, one_mul]
    omega
  have hnoclamp : layoutCols sheet tile 20 = (sheet + 20) / (tile + 20) := by
    show (if (sheet + 20).tdiv (tile + 20) < 1 then 1 else (sheet + 20).tdiv (tile + 20)) =
      (sheet + 20) / (tile + 20)
    rw [htd, if_neg (not_lt.mpr hge1)]
  constructor
  · rw [hnoclamp]
    have hmul := Int.ediv_mul_le (sheet + 20) (show tile + 20 ≠ 0 by omega)
    linarith
  · intro n hn
    rw [hnoclamp, Int.le_ediv_iff_mul_le h20]
    linarith

theorem layoutCols_clamp (sheet tile : Int) (hs : 0 < sheet) (hlt : sheet < tile) :
    layoutCols sheet tile 20 = 1 := by
  have hz : (sheet + 20) / (tile + 20) = 0 :=
    Int.ediv_eq_zero_of_lt (by omega) (by omega)
  show (if (sheet + 20).tdiv (tile + 20) < 1 then 1 else (sheet + 20).tdiv (tile + 20)) = 1
  rw [Int.tdiv_eq_ediv (by omega) (by omega), hz]
  simp

theorem center_axis (L : Int) (hL : 0 ≤ L) :
    2 * L.tdiv 2 ≤ L ∧ L ≤ 2 * L.tdiv 2 + 1 := by
  rw [Int.tdiv_eq_ediv hL (by omega)]
  omega

/-- C5 (amended): on a 6x4-inch sheet at `dpi` (1800x1200 px at 300) with
a 20 px gap, whenever a tile fits in an axis the computed count is the
largest n with n*(tile+gap)-gap <= sheetDimension and the grid is centred
with the leftover margin split equally up to the odd pixel (truncated
halving); when the tile exceeds the sheet in an axis the count is clamped
to 1 and a grid is still produced (no fatal error); generation fails
fatally only when the sheet size is non-positive (dpi <= 0). -/
theorem generateLayout6Inch_grid_fit (width height dpi kb : Int)
    (hw : 0 < width) (hh : 0 < height) (hd : 0 < dpi) :
    ∃ g, generateLayout6Inch width height dpi kb = .ok g
    ∧ g.sheetW = 6 * dpi ∧ g.sheetH = 4 * dpi
    ∧ g.totalW = g.cols * width + (g.cols - 1) * 20
    ∧ g.totalH = g.rows * height + (g.rows - 1) * 20
    ∧ (width ≤ 6 * dpi →
        g.cols * (width + 20) - 20 ≤ 6 * dpi
        ∧ (∀ n : Int, n * (width + 20) - 20 ≤ 6 * dpi → n ≤ g.cols)
        ∧ 0 ≤ g.sheetW - g.totalW
        ∧ 2 * g.startX ≤ g.sheetW - g.totalW
        ∧ g.sheetW - g.totalW ≤ 2 * g.startX + 1)
    ∧ (6 * dpi < width → g.cols = 1)
    ∧ (height ≤ 4 * dpi →
        g.rows * (height + 20) - 20 ≤ 4 * dpi
        ∧ (∀ n : Int, n * (height + 20) - 20 ≤ 4 * dpi → n ≤ g.rows)
        ∧ 0 ≤ g.sheetH - g.totalH
        ∧ 2 * g.startY ≤ g.sheetH - g.totalH
        ∧ g.sheetH - g.totalH ≤ 2 * g.startY + 1)
    ∧ (4 * dpi < height → g.rows = 1) := by
  have hcond : ¬(6 * dpi ≤ 0 ∨ 4 * dpi ≤ 0) := by omega
  have heq : generateLayout6Inch width height dpi kb = .ok
      { sheetW := 6 * dpi, sheetH := 4 * dpi,
        cols := layoutCols (6 * dpi) width 20,
        rows := layoutCols (4 * dpi) height 20,
        totalW := layoutCols (6 * dpi) width 20 * width +
          (layoutCols (6 * dpi) width 20 - 1) * 20,
        totalH := layoutCols (4 * dpi) height 20 * height +
          (layoutCols (4 * dpi) height 20 - 1) * 20,
        startX := (6 * dpi - (layoutCols (6 * dpi) width 20 * width +
          (layoutCols (6 * dpi) width 20 - 1) * 20)).tdiv 2,
        startY := (4 * dpi - (layoutCols (4 * dpi) height 20 * height +
          (layoutCols (4 * dpi) height 20 - 1) * 20)).tdiv 2,
        quality := if 0 < kb ∧ kb < 200 then 70 else 85 } := by
    simp [generateLayout6Inch, hcond]
  refine ⟨_, heq, rfl, rfl, rfl, rfl, ?_, ?_, ?_, ?_⟩
  · intro hfit
    obtain ⟨hb1, hb2⟩ := layoutCols_fit (6 * dpi) width (by omega) hw hfit
    have htot : layoutCols (6 * dpi) width 20 * width +
        (layoutCols (6 * dpi) width 20 - 1) * 20 =
        layoutCols (6 * dpi) width 20 * (width + 20) - 20 := by ring
    have hL : 0 ≤ 6 * dpi - (layoutCols (6 * dpi) width 20 * width +
        (layoutCols (6 * dpi) width 20 - 1) * 20) := by
      rw [htot]
      omega
    obtain ⟨hc1, hc2⟩ := center_axis _ hL
    refine ⟨?_, ?_, ?_, ?_, ?_⟩
    · show layoutCols (6 * dpi) width 20 * (width + 20) - 20 ≤ 6 * dpi
      exact hb1
    · intro n hn
      exact hb2 n hn
    · exact hL
    · exact hc1
    · exact hc2
  · intro hover
    exact layoutCols_clamp (6 * dpi) width (by omega) hover
  · intro hfit
    obtain ⟨hb1, hb2⟩ := layoutCols_fit (4 * dpi) height (by omega) hh hfit
    have htot : layoutCols (4 * dpi) height 20 * height +
        (layoutCols (4 * dpi) height 20 - 1) * 20 =
        layoutCols (4 * dpi) height 20 * (height + 20) - 20 := by ring
    have hL : 0 ≤ 4 * dpi - (layoutCols (4 * dpi) height 20 * height +
        (layoutCols (4 * dpi) height 20 - 1) * 20) := by
      rw [htot]
      omega
    obtain ⟨hc1, hc2⟩ := center_axis _ hL
    refine ⟨?_, ?_, ?_, ?_, ?_⟩
    · show layoutCols (4 * dpi) height 20 * (height + 20) - 20 ≤ 4 * dpi
      exact hb1
    · intro n hn
      exact hb2 n hn
    · exact hL
    · exact hc1
    · exact hc2
  · intro hover
    exact layoutCols_clamp (4 * dpi) height (by omega) hover

/-- Counterexample to C5 as stated: with dpi=300 (1800x1200 sheet) and a
2000x472 tile - wider than the sheet, so no positive column count fits -
generateLayout6Inch does not fail; it clamps the column count to 1 and
returns a grid whose single column overflows the sheet (startX is
negative). -/
theorem generateLayout6Inch_oversize_tile_still_ok :
    generateLayout6Inch 2000 472 300 200 =
      .ok { sheetW := 1800, sheetH := 1200, cols := 1, rows := 2, totalW := 2000,
            totalH := 964, startX := -100, startY := 118, quality := 85 } := by
  decide

/-- Witness for C5 (amended): the 354x472 passport tile at dpi 300 yields
a grid. -/
theorem generateLayout6Inch_grid_fit_witness :
    ∃ g, generateLayout6Inch 354 472 300 200 = .ok g :=
  (generateLayout6Inch_grid_fit 354 472 300 200 (by decide) (by decide) (by decide)).elim
    (fun g hg => ⟨g, hg.1⟩)

/-! ### DownloadToken lifecycle (internal/domain + task_service.go) -/

inductive TokenStatus
  | active
  | used
  | expired
  | revoked
deriving DecidableEq, Repr

/-- domain.DownloadToken; UsedAt's Go zero value is rendered as 0. -/
structure DownloadToken where
  token : String
  taskID : String
  userID : String
  status : TokenStatus
  expiresAt : Int
  createdAt : Int
  usedAt : Int
deriving DecidableEq, Repr

abbrev TokenStore := List (String × DownloadToken)

def getToken (st : TokenStore) (token : String) : Option DownloadToken :=
  alistGet st token

def putToken (st : TokenStore) (dt : DownloadToken) : TokenStore :=
  alistPut st dt.token dt

abbrev TokenStoreWF (st : TokenStore) : Prop := alistWF DownloadToken.token st

namespace DownloadService

/-- DownloadService.UseToken (task_service.go:279-302). The token string
is trimmed first; Go's now.After(expiresAt) is the strict comparison
expiresAt < now. The pair's second component is the token repository
after the call. -/
def UseToken (st : TokenStore) (token : String) (now : Int) :
    Except SvcErr DownloadToken × TokenStore :=
  let tk := trimSpace token
  if tk = "" then (.error (.badRequest "token required"), st)
  else
    match getToken st tk with
    | none => (.error (.notFound "token"), st)
    | some dt =>
      if dt.status ≠ .active then (.error (.conflict "token not active"), st)
      else if dt.expiresAt < now then
        (.error (.badRequest "token expired"),
          putToken st { dt with status := .expired, usedAt := now })
      else
        (.ok { dt with status := .used, usedAt := now },
          putToken st { dt with status := .used, usedAt := now })

end DownloadService

theorem getToken_wf (st : TokenStore) (hwf : TokenStoreWF st) (k : String)
    (dt : DownloadToken) (h : getToken st k = some dt) : dt.token = k :=
  alistGet_wf DownloadToken.token st hwf k dt h

theorem UseToken_preserves_wf (st : TokenStore) (hwf : TokenStoreWF st)
    (tk : String) (now : Int) :
    TokenStoreWF (DownloadService.UseToken st tk now).2 := by
  by_cases h0 : trimSpace tk = ""
  · simpa [DownloadService.UseToken, h0] using hwf
  · cases hg : getToken st (trimSpace tk) with
    | none => simpa [DownloadService.UseToken, h0, hg] using hwf
    | some dt =>
      by_cases hs : dt.status ≠ TokenStatus.active
      · simpa [DownloadService.UseToken, h0, hg, hs] using hwf
      · by_cases he : dt.expiresAt < now
        · have hgoal : TokenStoreWF (putToken st
              { dt with status := TokenStatus.expired, usedAt := now }) :=
            alistWF_put DownloadToken.token st hwf _
          simpa [DownloadService.UseToken, h0, hg, hs, he] using hgoal
        · have hgoal : TokenStoreWF (putToken st
              { dt with status := TokenStatus.used, usedAt := now }) :=
            alistWF_put DownloadToken.token st hwf _
          simpa [DownloadService.UseToken, h0, hg, hs, he] using hgoal

theorem UseToken_preserves_inactive (st : TokenStore) (hwf : TokenStoreWF st)
    (k : String) (dt : DownloadToken) (hget : getToken st k = some dt)
    (hna : dt.status ≠ TokenStatus.active) (tk : String) (now : Int) :
    ∃ dt2, getToken (DownloadService.UseToken st tk now).2 k = some dt2 ∧
      dt2.status ≠ TokenStatus.active := by
  by_cases h0 : trimSpace tk = ""
  · exact ⟨dt, by simp [DownloadService.UseToken, h0, hget], hna⟩
  · cases hg : getToken st (trimSpace tk) with
    | none => exact ⟨dt, by simp [DownloadService.UseToken, h0, hg, hget], hna⟩
    | some du =>
      have hu : du.token = trimSpace tk := getToken_wf st hwf _ du hg
      by_cases hs : du.status ≠ TokenStatus.active
      · exact ⟨dt, by simp [DownloadService.UseToken, h0, hg, hs, hget], hna⟩
      · have hne : k ≠ trimSpace tk := by
          intro hkeq
          rw [hkeq, hg] at hget
          cases hget
          exact hs hna
        by_cases he : du.expiresAt < now
        · refine ⟨dt, ?_, hna⟩
          have hother : getToken (putToken st
              { du with status := TokenStatus.expired, usedAt := now }) k =
              getToken st k := by
            apply alistGet_put_ne
            show k ≠ du.token
            rw [hu]
            exact hne
          simp [DownloadService.UseToken, h0, hg, hs, he, hother, hget]
        · refine ⟨dt, ?_, hna⟩
          have hother : getToken (putToken st
              { du with status := TokenStatus.used, usedAt := now }) k =
              getToken st k := by
            apply alistGet_put_ne
            show k ≠ du.token
            rw [hu]
            exact hne
          simp [DownloadService.UseToken, h0, hg, hs, he, hother, hget]

/-- Replaying a list of UseToken calls (token, clock) against a store:
the later calls of a token's lifetime. -/
def runUseTokens (st : TokenStore) (calls : List (String × Int)) : TokenStore :=
  calls.foldl (fun s c => (DownloadService.UseToken s c.1 c.2).2) st

theorem runUseTokens_preserves_inactive (calls : List (String × Int)) (st : TokenStore)
    (hwf : TokenStoreWF st) (k : String) (dt : DownloadToken)
    (hget : getToken st k = some dt) (hna : dt.status ≠ TokenStatus.active) :
    TokenStoreWF (runUseTokens st calls) ∧
    ∃ dt2, getToken (runUseTokens st calls) k = some dt2 ∧
      dt2.status ≠ TokenStatus.active := by
  induction calls generalizing st dt with
  | nil => exact ⟨hwf, dt, hget, hna⟩
  | cons c rest ih =>
    have hwf' := UseToken_preserves_wf st hwf c.1 c.2
    obtain ⟨dt2, hget2, hna2⟩ := UseToken_preserves_inactive st hwf k dt hget hna c.1 c.2
    exact ih _ hwf' dt2 hget2 hna2

/-- C6: an active token redeemed strictly after its expiry is moved to
expired and persisted while the call returns BadRequest - even on the
first redemption attempt - and no UseToken call ever moves any token
back to active. -/
theorem useToken_expiry_mutating_read (st : TokenStore) (hwf : TokenStoreWF st)
    (token : String) (now : Int) (dt : DownloadToken)
    (hne : trimSpace token ≠ "") (hget : getToken st (trimSpace token) = some dt)
    (hact : dt.status = TokenStatus.active) (hexp : dt.expiresAt < now) :
    DownloadService.UseToken st token now =
      (.error (.badRequest "token expired"),
        putToken st { dt with status := TokenStatus.expired, usedAt := now })
    ∧ getToken (DownloadService.UseToken st token now).2 (trimSpace token) =
        some { dt with status := TokenStatus.expired, usedAt := now }
    ∧ (∀ st2, TokenStoreWF st2 → ∀ k dt2, getToken st2 k = some dt2 →
        dt2.status ≠ TokenStatus.active → ∀ tk2 now2,
        ∃ dt3, getToken (DownloadService.UseToken st2 tk2 now2).2 k = some dt3 ∧
          dt3.status ≠ TokenStatus.active) := by
  have hid : dt.token = trimSpace token := getToken_wf st hwf _ dt hget
  have hstep : DownloadService.UseToken st token now =
      (.error (.badRequest "token expired"),
        putToken st { dt with status := TokenStatus.expired, usedAt := now }) := by
    simp [DownloadService.UseToken, hne, hget, hact, hexp]
  refine ⟨hstep, ?_, ?_⟩
  · rw [hstep]
    show getToken (putToken st { dt with status := TokenStatus.expired, usedAt := now })
      (trimSpace token) = some { dt with status := TokenStatus.expired, usedAt := now }
    rw [← hid]
    exact alistGet_put_self st dt.token _
  · intro st2 hwf2 k dt2 hget2 hna2 tk2 now2
    exact UseToken_preserves_inactive st2 hwf2 k dt2 hget2 hna2 tk2 now2

/-- C7: at most one UseToken call on a token can ever succeed: after a
success every replay of the token - with arbitrary other UseToken calls
in between - returns Conflict, and on a token that has already left
active status UseToken returns Conflict (or BadRequest for a blank
token), never success. -/
theorem useToken_at_most_one_success (st : TokenStore) (hwf : TokenStoreWF st)
    (token : String) (now : Int) :
    (∀ dt1, (DownloadService.UseToken st token now).1 = .ok dt1 →
      ∀ calls now2,
        (DownloadService.UseToken
          (runUseTokens (DownloadService.UseToken st token now).2 calls)
          token now2).1 = .error (.conflict "token not active"))
    ∧ (∀ dt, getToken st (trimSpace token) = some dt →
        dt.status ≠ TokenStatus.active →
        (DownloadService.UseToken st token now).1 =
          .error (.conflict "token not active")
        ∨ (DownloadService.UseToken st token now).1 =
          .error (.badRequest "token required")) := by
  constructor
  · intro dt1 hok calls now2
    by_cases h0 : trimSpace token = ""
    · simp [DownloadService.UseToken, h0] at hok
    · cases hg : getToken st (trimSpace token) with
      | none => simp [DownloadService.UseToken, h0, hg] at hok
      | some dt =>
        by_cases hs : dt.status ≠ TokenStatus.active
        · simp [DownloadService.UseToken, h0, hg, hs] at hok
        · by_cases he : dt.expiresAt < now
          · simp [DownloadService.UseToken, h0, hg, hs, he] at hok
          · have hid : dt.token = trimSpace token := getToken_wf st hwf _ dt hg
            have hst1 : (DownloadService.UseToken st token now).2 =
                putToken st { dt with status := TokenStatus.used, usedAt := now } := by
              simp [DownloadService.UseToken, h0, hg, hs, he]
            have hwf1 : TokenStoreWF (DownloadService.UseToken st token now).2 :=
              UseToken_preserves_wf st hwf token now
            have hget1 : getToken (DownloadService.UseToken st token now).2
                (trimSpace token) =
                some { dt with status := TokenStatus.used, usedAt := now } := by
              rw [hst1, ← hid]
              exact alistGet_put_self st dt.token _
            obtain ⟨hwf2, dt2, hget2, hna2⟩ :=
              runUseTokens_preserves_inactive calls _ hwf1 (trimSpace token) _ hget1
                (by intro hc; cases hc)
            generalize hstF : runUseTokens (DownloadService.UseToken st token now).2
              calls = stF at hget2
            simp [DownloadService.UseToken, h0, hget2, hna2]
  · intro dt hget hna
    by_cases h0 : trimSpace token = ""
    · right
      simp [DownloadService.UseToken, h0]
    · left
      simp [DownloadService.UseToken, h0, hget, hna]

def tokenActive : DownloadToken :=
  { token := "tok1", taskID := "t1", userID := "u1",
    status := TokenStatus.active, expiresAt := 100, createdAt := 0, usedAt := 0 }

def tokensFix : TokenStore := [("tok1", tokenActive)]

/-- Witness for C6: redeeming the stored active token at time 101 > 100
expires it and returns BadRequest. -/
theorem useToken_expiry_mutating_read_witness :
    DownloadService.UseToken tokensFix "tok1" 101 =
      (.error (.badRequest "token expired"),
        putToken tokensFix { tokenActive with status := TokenStatus.expired, usedAt := 101 }) :=
  (useToken_expiry_mutating_read tokensFix (by decide) "tok1" 101 tokenActive
    (by decide) (by decide) (by decide) (by decide)).1

/-- Witness for C7: after a successful redemption at time 50, redeeming
again at time 60 yields Conflict. -/
theorem useToken_at_most_one_success_witness :
    (DownloadService.UseToken
      (runUseTokens (DownloadService.UseToken tokensFix "tok1" 50).2 []) "tok1" 60).1 =
      .error (.conflict "token not active") :=
  (useToken_at_most_one_success tokensFix (by decide) "tok1" 50).1
    { tokenActive with status := TokenStatus.used, usedAt := 50 } (by decide) [] 60

/-! ### TaskService pipeline (internal/usecase/task_service.go) -/

/-- algo.IDPhotoResp. -/
structure IDPhotoResp where
  ok : Bool
  imageBase64Standard : String
  imageBase64HD : String
deriving DecidableEq, Repr

/-- algo.AddBackgroundResp. -/
structure AddBackgroundResp where
  ok : Bool
  imageBase64 : String
deriving DecidableEq, Repr

/-- The external collaborators of TaskService, as response oracles whose
success/failure and payloads drive the control flow: the file system
(os.ReadFile), the algo HTTP client, algo.DecodeBase64, and the asset
writer (FSWriter.Write / WriteFile). -/
structure TaskCollab where
  readFile : String → Except String Bytes
  idPhoto : String → String → Int → Int → Int → Except String IDPhotoResp
  addBackgroundBase64 : String → String → String → Int → Except String AddBackgroundResp
  addBackgroundFile : String → Bytes → String → Int → Except String AddBackgroundResp
  decodeBase64 : String → Except String Bytes
  write : String → String → Bytes → Except String String
  writeFile : String → String → Bytes → Except String String

/-- filepath.Join of three segments. -/
def pathJoin3 (dir a b : String) : String :=
  dir ++ "/" ++ a ++ "/" ++ b

/-- TaskService.objectKeyToPath: strip a leading "uploads/" and join with
the uploads dir. -/
def objectKeyToPath (uploadsDir objectKey : String) : String :=
  if objectKey.take 8 = "uploads/" then uploadsDir ++ "/" ++ objectKey.drop 8
  else uploadsDir ++ "/" ++ objectKey

/-- The bounded diagnostic prefix kept from a malformed base64 payload
(Go prefix[:32], byte-based slicing rendered as character take). -/
def strPrefix32 (s : String) : String :=
  if s.length > 32 then s.take 32 else s

namespace TaskService

/-- The fetch-and-render tail of GenerateBackground, reached when no
non-empty cached reference exists for the color: read the baseline file,
recolor it remotely, decode, persist the asset, record it on the task.
Errors propagate and leave the store untouched. -/
def generateBackgroundFetch (env : TaskCollab) (tasks : TaskStore)
    (assetsDir algoURL taskID colorName : String) (dpi : Int)
    (colorHexOf : String → String) (now : Int) (t : Task) :
    Except OpErr String × TaskStore :=
  match env.readFile (pathJoin3 assetsDir taskID "baseline.png") with
  | .error e => (.error (.ext e), tasks)
  | .ok data =>
    match env.addBackgroundFile algoURL data (colorHexOf colorName) dpi with
    | .error e => (.error (.ext e), tasks)
    | .ok bg =>
      if bg.ok = true then
        match env.decodeBase64 bg.imageBase64 with
        | .error e => (.error (.ext e), tasks)
        | .ok jpg =>
          match env.write taskID colorName jpg with
          | .error e => (.error (.ext e), tasks)
          | .ok url =>
            (.ok url, putTask tasks { t with
              processedUrls := alistPut t.processedUrls colorName url,
              updatedAt := now })
      else (.error (.svc (.notFound "add_background")), tasks)

/-- TaskService.GenerateBackground (task_service.go:152-185): return the
cached non-empty reference for the color when present, otherwise fetch,
render and record it. -/
def GenerateBackground (env : TaskCollab) (tasks : TaskStore)
    (assetsDir algoURL taskID colorName : String) (dpi : Int)
    (colorHexOf : String → String) (now : Int) :
    Except OpErr String × TaskStore :=
  match getTask tasks taskID with
  | none => (.error (.svc (.notFound "task")), tasks)
  | some t =>
    match alistGet t.processedUrls colorName with
    | some u =>
      if u = "" then
        generateBackgroundFetch env tasks assetsDir algoURL taskID colorName dpi
          colorHexOf now t
      else (.ok u, tasks)
    | none =>
      generateBackgroundFetch env tasks assetsDir algoURL taskID colorName dpi
        colorHexOf now t

/-- The failure epilogue of CreateTask: mark the task failed with the
message, stamp updatedAt, persist, and return the failed task. -/
def failTask (repo : TaskStore) (t : Task) (msg : String) (now : Int) :
    Task × TaskStore :=
  let tf : Task := { t with status := TaskStatus.failed, errorMsg := msg, updatedAt := now }
  (tf, putTask repo tf)

/-- TaskService.CreateTask (task_service.go:51-150): persist a processing
task, cut out the photo, decode and persist the baseline, recolor to the
default background (white when blank), decode and persist the variant,
then mark done; every failure point persists status=failed with its
message and returns the failed task rather than an error. -/
def CreateTask (env : TaskCollab) (repo : TaskStore) (algoURL uploadsDir : String)
    (userID specCode sourceObjectKey defaultBackground : String)
    (width height dpi : Int) (availableColors : List String)
    (colorHexOf : String → String) (taskID : String) (now : Int) :
    Task × TaskStore :=
  let t0 : Task :=
    { id := taskID, userID := userID, specCode := specCode,
      spec := { code := specCode, widthPx := width, heightPx := height, dpi := dpi },
      itemID := 0, watermark := false, beauty := 0, enhance := 0,
      sourceObjectKey := sourceObjectKey, status := TaskStatus.processing,
      baselineUrl := "", availableColors := availableColors,
      processedUrls := [], layoutUrls := [], errorMsg := "",
      createdAt := now, updatedAt := now }
  let repo0 := putTask repo t0
  match env.idPhoto algoURL (objectKeyToPath uploadsDir sourceObjectKey) height width dpi with
  | .error e => failTask repo0 t0 ("algo idphoto error: " ++ e) now
  | .ok idp =>
    if idp.ok = true then
      let rgbaB64 :=
        if idp.imageBase64Standard = "" then idp.imageBase64HD
        else idp.imageBase64Standard
      match env.decodeBase64 rgbaB64 with
      | .error _ => failTask repo0 t0 ("decode baseline error: " ++ strPrefix32 rgbaB64) now
      | .ok rgbaData =>
        match env.writeFile taskID "baseline.png" rgbaData with
        | .error _ => failTask repo0 t0 "write baseline error" now
        | .ok baseURL =>
          let t1 : Task := { t0 with baselineUrl := baseURL }
          let bgColor := if defaultBackground = "" then "white" else defaultBackground
          match env.addBackgroundBase64 algoURL rgbaB64 (colorHexOf bgColor) dpi with
          | .error e => failTask repo0 t1 ("algo add_background error: " ++ e) now
          | .ok bg =>
            if bg.ok = true then
              match env.decodeBase64 bg.imageBase64 with
              | .error _ =>
                failTask repo0 t1 ("decode image error: " ++ strPrefix32 bg.imageBase64) now
              | .ok data =>
                match env.write taskID bgColor data with
                | .error _ => failTask repo0 t1 "write image error" now
                | .ok url =>
                  let t2 : Task := { t1 with
                    processedUrls := alistPut t1.processedUrls bgColor url,
                    status := TaskStatus.done, updatedAt := now }
                  (t2, putTask repo0 t2)
            else failTask repo0 t1 "algo add_background resp not ok" now
    else failTask repo0 t0 "algo idphoto resp not ok" now

end TaskService

theorem generateBackgroundFetch_error_unchanged (env : TaskCollab) (tasks : TaskStore)
    (assetsDir algoURL taskID colorName : String) (dpi : Int)
    (colorHexOf : String → String) (now : Int) (t : Task) :
    ∀ e, (TaskService.generateBackgroundFetch env tasks assetsDir algoURL taskID colorName
        dpi colorHexOf now t).1 = .error e →
      (TaskService.generateBackgroundFetch env tasks assetsDir algoURL taskID colorName
        dpi colorHexOf now t).2 = tasks := by
  intro e he
  cases hrf : env.readFile (pathJoin3 assetsDir taskID "baseline.png") with
  | error e1 => simp [TaskService.generateBackgroundFetch, hrf]
  | ok data =>
    cases hab : env.addBackgroundFile algoURL data (colorHexOf colorName) dpi with
    | error e2 => simp [TaskService.generateBackgroundFetch, hrf, hab]
    | ok bg =>
      by_cases hbo : bg.ok = true
      · cases hdc : env.decodeBase64 bg.imageBase64 with
        | error e3 => simp [TaskService.generateBackgroundFetch, hrf, hab, hbo, hdc]
        | ok jpg =>
          cases hw : env.write taskID colorName jpg with
          | error e4 => simp [TaskService.generateBackgroundFetch, hrf, hab, hbo, hdc, hw]
          | ok url =>
            simp [TaskService.generateBackgroundFetch, hrf, hab, hbo, hdc, hw] at he
      · simp [TaskService.generateBackgroundFetch, hrf, hab, hbo]

theorem generateBackgroundFetch_ok_state (env : TaskCollab) (tasks : TaskStore)
    (assetsDir algoURL taskID colorName : String) (dpi : Int)
    (colorHexOf : String → String) (now : Int) (t : Task) (url : String) (st1 : TaskStore)
    (hok : TaskService.generateBackgroundFetch env tasks assetsDir algoURL taskID colorName
      dpi colorHexOf now t = (.ok url, st1)) :
    (∃ jpg, env.write taskID colorName jpg = .ok url)
    ∧ st1 = putTask tasks { t with
        processedUrls := alistPut t.processedUrls colorName url, updatedAt := now } := by
  cases hrf : env.readFile (pathJoin3 assetsDir taskID "baseline.png") with
  | error e1 => simp [TaskService.generateBackgroundFetch, hrf] at hok
  | ok data =>
    cases hab : env.addBackgroundFile algoURL data (colorHexOf colorName) dpi with
    | error e2 => simp [TaskService.generateBackgroundFetch, hrf, hab] at hok
    | ok bg =>
      by_cases hbo : bg.ok = true
      · cases hdc : env.decodeBase64 bg.imageBase64 with
        | error e3 => simp [TaskService.generateBackgroundFetch, hrf, hab, hbo, hdc] at hok
        | ok jpg =>
          cases hw : env.write taskID colorName jpg with
          | error e4 =>
            simp [TaskService.generateBackgroundFetch, hrf, hab, hbo, hdc, hw] at hok
          | ok url0 =>
            simp only [TaskService.generateBackgroundFetch, hrf, hab, hbo, if_true,
              hdc, hw] at hok
            have hu0 : url0 = url := Except.ok.inj (congrArg Prod.fst hok)
            have hst : st1 = putTask tasks { t with
                processedUrls := alistPut t.processedUrls colorName url,
                updatedAt := now } := by
              rw [← hu0]
              exact (congrArg Prod.snd hok).symm
            exact ⟨⟨jpg, by rw [hw, hu0]⟩, hst⟩
      · simp [TaskService.generateBackgroundFetch, hrf, hab, hbo] at hok

/-- C10: whenever GenerateBackground returns an error - task not found,
unreadable baseline, recolor failure or non-OK response, decode failure,
or asset-write failure - the task repository is returned exactly as it
was: no failed status, no errorMsg, no processedUrls or updatedAt
change is recorded. -/
theorem generateBackground_error_leaves_task_unchanged (env : TaskCollab)
    (tasks : TaskStore) (assetsDir algoURL taskID colorName : String) (dpi : Int)
    (colorHexOf : String → String) (now : Int) :
    ∀ e, (TaskService.GenerateBackground env tasks assetsDir algoURL taskID colorName dpi
        colorHexOf now).1 = .error e →
      (TaskService.GenerateBackground env tasks assetsDir algoURL taskID colorName dpi
        colorHexOf now).2 = tasks := by
  intro e he
  cases hg : getTask tasks taskID with
  | none => simp [TaskService.GenerateBackground, hg]
  | some t =>
    cases hc : alistGet t.processedUrls colorName with
    | some u =>
      by_cases hu : u = ""
      · have he' : (TaskService.generateBackgroundFetch env tasks assetsDir algoURL taskID
            colorName dpi colorHexOf now t).1 = .error e := by
          simpa [TaskService.GenerateBackground, hg, hc, hu] using he
        have hun := generateBackgroundFetch_error_unchanged env tasks assetsDir algoURL
          taskID colorName dpi colorHexOf now t e he'
        simpa [TaskService.GenerateBackground, hg, hc, hu] using hun
      · simp [TaskService.GenerateBackground, hg, hc, hu] at he
    | none =>
      have he' : (TaskService.generateBackgroundFetch env tasks assetsDir algoURL taskID
          colorName dpi colorHexOf now t).1 = .error e := by
        simpa [TaskService.GenerateBackground, hg, hc] using he
      have hun := generateBackgroundFetch_error_unchanged env tasks assetsDir algoURL
        taskID colorName dpi colorHexOf now t e he'
      simpa [TaskService.GenerateBackground, hg, hc] using hun

/-- C8: a color whose processedUrls entry is already a non-empty
reference is returned as is - for every collaborator environment, so no
external call or storage write can influence the result - and the store
is untouched; consequently, after a first successful GenerateBackground
the reference is cached and every later call for the same (task, color)
returns the identical reference under any collaborator environment,
again without changing the store. -/
theorem generateBackground_idempotent_by_color (tasks : TaskStore)
    (assetsDir algoURL taskID colorName : String) (dpi : Int)
    (colorHexOf : String → String) (now : Int) :
    (∀ t u, getTask tasks taskID = some t →
      alistGet t.processedUrls colorName = some u → u ≠ "" →
      ∀ env : TaskCollab,
        TaskService.GenerateBackground env tasks assetsDir algoURL taskID colorName dpi
          colorHexOf now = (.ok u, tasks))
    ∧ (TaskStoreWF tasks →
      ∀ env : TaskCollab,
        (∀ a b c r, env.write a b c = .ok r → r ≠ "") →
        ∀ url st1,
          TaskService.GenerateBackground env tasks assetsDir algoURL taskID colorName dpi
            colorHexOf now = (.ok url, st1) →
          ∀ (env2 : TaskCollab) (dpi2 : Int) (hex2 : String → String) (now2 : Int),
            TaskService.GenerateBackground env2 st1 assetsDir algoURL taskID colorName
              dpi2 hex2 now2 = (.ok url, st1)) := by
  constructor
  · intro t u hg hc hu env
    simp [TaskService.GenerateBackground, hg, hc, hu]
  · intro hwf env hwr url st1 hok env2 dpi2 hex2 now2
    cases hg : getTask tasks taskID with
    | none => simp [TaskService.GenerateBackground, hg] at hok
    | some t =>
      have hid : t.id = taskID := alistGet_wf Task.id tasks hwf taskID t hg
      have hfetch : TaskService.generateBackgroundFetch env tasks assetsDir algoURL taskID
          colorName dpi colorHexOf now t = (.ok url, st1) →
          TaskService.GenerateBackground env2 st1 assetsDir algoURL taskID colorName dpi2
            hex2 now2 = (.ok url, st1) := by
        intro hok'
        obtain ⟨⟨jpg, hwj⟩, hst⟩ := generateBackgroundFetch_ok_state env tasks assetsDir
          algoURL taskID colorName dpi colorHexOf now t url st1 hok'
        have hurl : url ≠ "" := hwr taskID colorName jpg url hwj
        have ht' : getTask st1 taskID = some { t with
            processedUrls := alistPut t.processedUrls colorName url, updatedAt := now } := by
          rw [hst, ← hid]
          exact alistGet_put_self tasks t.id _
        have hcache : alistGet (alistPut t.processedUrls colorName url) colorName =
            some url := alistGet_put_self t.processedUrls colorName url
        simp [TaskService.GenerateBackground, ht', hcache, hurl]
      cases hc : alistGet t.processedUrls colorName with
      | some u =>
        by_cases hu : u = ""
        · exact hfetch (by simpa [TaskService.GenerateBackground, hg, hc, hu] using hok)
        · have hpair : Except.ok u = Except.ok (α := String) (ε := OpErr) url ∧ tasks = st1 := by
            constructor
            · have := congrArg Prod.fst hok
              simpa [TaskService.GenerateBackground, hg, hc, hu] using this
            · have := congrArg Prod.snd hok
              simpa [TaskService.GenerateBackground, hg, hc, hu] using this
          have huu : u = url := Except.ok.inj hpair.1
          have hu2 : ¬(url = "") := by
            rw [← huu]
            exact hu
          rw [← hpair.2]
          simp [TaskService.GenerateBackground, hg, hc, hu, huu, hu2]
      | none =>
        exact hfetch (by simpa [TaskService.GenerateBackground, hg, hc] using hok)

/-- C9: assuming the asset-writer contract that a successful write
returns a non-empty reference, every task CreateTask returns with
status done carries a non-empty baselineUrl and a processedUrls entry
for the requested background color (defaulting to white when blank). -/
theorem createTask_done_implies_artifacts (env : TaskCollab) (repo : TaskStore)
    (algoURL uploadsDir userID specCode sourceObjectKey defaultBackground : String)
    (width height dpi : Int) (availableColors : List String)
    (colorHexOf : String → String) (taskID : String) (now : Int)
    (hwc : ∀ a b c r, env.writeFile a b c = .ok r → r ≠ "") :
    (TaskService.CreateTask env repo algoURL uploadsDir userID specCode sourceObjectKey
        defaultBackground width height dpi availableColors colorHexOf taskID
        now).1.status = TaskStatus.done →
    (TaskService.CreateTask env repo algoURL uploadsDir userID specCode sourceObjectKey
        defaultBackground width height dpi availableColors colorHexOf taskID
        now).1.baselineUrl ≠ ""
    ∧ (alistGet (TaskService.CreateTask env repo algoURL uploadsDir userID specCode
        sourceObjectKey defaultBackground width height dpi availableColors colorHexOf
        taskID now).1.processedUrls
        (if defaultBackground = "" then "white" else defaultBackground)).isSome = true := by
  intro hdone
  cases hip : env.idPhoto algoURL (objectKeyToPath uploadsDir sourceObjectKey)
      height width dpi with
  | error e =>
    simp [TaskService.CreateTask, TaskService.failTask, hip] at hdone
  | ok idp =>
    by_cases hio : idp.ok = true
    · cases hdc : env.decodeBase64
          (if idp.imageBase64Standard = "" then idp.imageBase64HD
           else idp.imageBase64Standard) with
      | error e =>
        simp [TaskService.CreateTask, TaskService.failTask, hip, hio, hdc] at hdone
      | ok rgbaData =>
        cases hwfl : env.writeFile taskID "baseline.png" rgbaData with
        | error e =>
          simp [TaskService.CreateTask, TaskService.failTask, hip, hio, hdc, hwfl] at hdone
        | ok baseURL =>
          cases hab : env.addBackgroundBase64 algoURL
              (if idp.imageBase64Standard = "" then idp.imageBase64HD
               else idp.imageBase64Standard)
              (colorHexOf (if defaultBackground = "" then "white" else defaultBackground))
              dpi with
          | error e =>
            simp [TaskService.CreateTask, TaskService.failTask, hip, hio, hdc, hwfl,
              hab] at hdone
          | ok bg =>
            by_cases hbo : bg.ok = true
            · cases hdc2 : env.decodeBase64 bg.imageBase64 with
              | error e =>
                simp [TaskService.CreateTask, TaskService.failTask, hip, hio, hdc, hwfl,
                  hab, hbo, hdc2] at hdone
              | ok data =>
                cases hw : env.write taskID
                    (if defaultBackground = "" then "white" else defaultBackground)
                    data with
                | error e =>
                  simp [TaskService.CreateTask, TaskService.failTask, hip, hio, hdc,
                    hwfl, hab, hbo, hdc2, hw] at hdone
                | ok url =>
                  constructor
                  · have hbne : baseURL ≠ "" := hwc taskID "baseline.png" rgbaData
                      baseURL hwfl
                    simpa [TaskService.CreateTask, hip, hio, hdc, hwfl, hab, hbo,
                      hdc2, hw] using hbne
                  · simp [TaskService.CreateTask, hip, hio, hdc, hwfl, hab, hbo,
                      hdc2, hw, alistGet_put_self]
            · simp [TaskService.CreateTask, TaskService.failTask, hip, hio, hdc, hwfl,
                hab, hbo] at hdone
    · simp [TaskService.CreateTask, TaskService.failTask, hip, hio] at hdone

/-- A collaborator environment whose remote and file-system calls all
fail and whose asset writes return fixed references; used to witness
that the cached-path results do not depend on the collaborators. -/
def envStub : TaskCollab :=
  { readFile := fun _ => .error "io down",
    idPhoto := fun _ _ _ _ _ => .error "algo down",
    addBackgroundBase64 := fun _ _ _ _ => .error "algo down",
    addBackgroundFile := fun _ _ _ _ => .error "algo down",
    decodeBase64 := fun _ => .error "bad b64",
    write := fun _ _ _ => .ok "/assets/t1/blue.jpg",
    writeFile := fun _ _ _ => .ok "/assets/t1/baseline.png" }

/-- A collaborator environment where every pipeline step succeeds. -/
def envOk : TaskCollab :=
  { readFile := fun _ => .ok "PNGDATA",
    idPhoto := fun _ _ _ _ _ =>
      .ok { ok := true, imageBase64Standard := "B64STD", imageBase64HD := "" },
    addBackgroundBase64 := fun _ _ _ _ => .ok { ok := true, imageBase64 := "B64BG" },
    addBackgroundFile := fun _ _ _ _ => .ok { ok := true, imageBase64 := "B64BG" },
    decodeBase64 := fun s => .ok ("DECODED:" ++ s),
    write := fun _ _ _ => .ok "/assets/t9/white.jpg",
    writeFile := fun _ _ _ => .ok "/assets/t9/baseline.png" }

/-- Witness for C8: the stored white variant of the fixture task is
returned from the cache even under the all-failing collaborator stub. -/
theorem generateBackground_idempotent_by_color_witness :
    TaskService.GenerateBackground envStub tasksFix "assets" "http://algo" "t1" "white"
      300 (fun _ => "ffffff") 9 = (.ok "/assets/t1/white.jpg", tasksFix) :=
  (generateBackground_idempotent_by_color tasksFix "assets" "http://algo" "t1" "white"
    300 (fun _ => "ffffff") 9).1 taskDone "/assets/t1/white.jpg"
    (by decide) (by decide) (by decide) envStub

/-- Witness for C9: the fully successful pipeline yields a done task
with its baseline and white variant recorded. -/
theorem createTask_done_implies_artifacts_witness :
    (TaskService.CreateTask envOk [] "http://algo" "uploads" "u1" "passport"
        "uploads/s.jpg" "" 354 472 300 ["white"] (fun _ => "ffffff") "t9"
        4).1.baselineUrl ≠ ""
    ∧ (alistGet (TaskService.CreateTask envOk [] "http://algo" "uploads" "u1" "passport"
        "uploads/s.jpg" "" 354 472 300 ["white"] (fun _ => "ffffff") "t9"
        4).1.processedUrls
        (if ("" : String) = "" then "white" else "")).isSome = true :=
  createTask_done_implies_artifacts envOk [] "http://algo" "uploads" "u1" "passport"
    "uploads/s.jpg" "" 354 472 300 ["white"] (fun _ => "ffffff") "t9" 4
    (by intro a b c r h; cases h; decide) (by decide)

/-- Witness for C10: a GenerateBackground call that fails reading the
baseline leaves the fixture store unchanged. -/
theorem generateBackground_error_leaves_task_unchanged_witness :
    (TaskService.GenerateBackground envStub tasksFix "assets" "http://algo" "t1" "blue"
      300 (fun _ => "ffffff") 9).2 = tasksFix :=
  generateBackground_error_leaves_task_unchanged envStub tasksFix "assets" "http://algo"
    "t1" "blue" 300 (fun _ => "ffffff") 9 (.ext "io down") (by decide)

end PermitBackend
